import Mathlib

/-!
Verification development for pyfred `script03_apiwrapgen.py`.

The script generates, from a descriptor store (`apidat`) and a documentation
store (`docdat`), one Python wrapper definition per command.  The embedding
below translates the body of `main()` (lines 99-265) into pure Lean
functions.  The external collaborators that are out of scope for the
generator core (type translation `vb2pytype`, documentation formatting
`fmt_docstr`, long-line wrapping `wrap_longlines`, and the stub-directory
path join) are passed in as an explicit `ExtFns` record of functions, mirroring
the spec's "external collaborators with fixed interfaces".
-/

set_option maxRecDepth 4000

/-- `cmdtype` field of a command descriptor. -/
inductive CmdType where
  | function
  | subroutine
  | datastruct
  | unknown
deriving DecidableEq

/-- One command descriptor of the descriptor store: fields `cmdtype`,
`descr`, `returns`, `sig`.  `returns` is a raw list (the script destructures
it with `rname, rtype = rlist`, which only succeeds on two elements), `sig`
is an ordered list of (parameter name, type name) pairs. -/
structure CmdEntry where
  cmdtype : CmdType
  descr : String
  returns : List String
  sig : List (String × String)
deriving DecidableEq

/-- External collaborators used by `main()` but defined outside the
generation core: `utils.vb2pytype(·, rettype='repr')`, `utils.fmt_docstr`,
`utils.wrap_longlines` with the two option sets that occur (default options
with `indent=I2` for the description, and `ncols=50, indent=" "*12` for
signatures), and `os.path.join(glovars.STUBDIR, ·)`. -/
structure ExtFns where
  vb2pytype : String → String
  fmt_docstr : List (String × String) → String
  wrapDescr : String → String
  wrapSig : String → String
  stubJoin : String → String

/-- Indentation constant `I1 = " " * 4`. -/
def I1 : String := "    "

/-- Indentation constant `I2 = I1 * 2`. -/
def I2 : String := I1 ++ I1

/-- Python `", ".join`: empty on the empty list, no separator around a
single element. -/
def joinComma : List String → String
  | [] => ""
  | [s0] => s0
  | s0 :: s1 :: rest => s0 ++ ", " ++ joinComma (s1 :: rest)

/-- Concatenation of a list of strings (the effect of consecutive
`fid.write`/`+=` calls on the fragments of one section). -/
def concatAll : List String → String
  | [] => ""
  | x :: xs => x ++ concatAll xs

/-- ASCII whitespace as matched by the regex class `\s`. -/
def isWs (c : Char) : Bool :=
  c = ' ' || c = '\t' || c = '\n' || c = '\r' || c = '\x0b' || c = '\x0c'

/-- Drop a maximal (greedy) run of whitespace, as `\s*` consumes it. -/
def dropWs : List Char → List Char
  | [] => []
  | c :: cs => if isWs c then dropWs cs else c :: cs

/-- Helper for `PARMAT.search`: after a `(`, only whitespace may occur
before the closing `)`. -/
def closeAfterWs : List Char → Bool
  | [] => false
  | c :: cs => if c = ')' then true else if isWs c then closeAfterWs cs else false

/-- `PARMAT.search(p) is not None` for `PARMAT = re.compile('\s*\(\s*\)\s*')`:
since the `\s*` parts may match empty, the pattern occurs in `p` iff `p`
contains a `(` followed, across only whitespace, by a `)`. -/
def parmatSearchB : List Char → Bool
  | [] => false
  | c :: cs => ((c == '(') && closeAfterWs cs) || parmatSearchB cs

/-- Attempt to match `\s*\(\s*\)\s*` greedily at the head of `l`; on success
return the remainder after the match.  The whitespace runs are disjoint from
the literal parentheses, so greedy matching without backtracking is exact. -/
def tryMatch (l : List Char) : Option (List Char) :=
  match dropWs l with
  | [] => none
  | c :: r =>
    if c = '(' then
      match dropWs r with
      | [] => none
      | d :: r2 => if d = ')' then some (dropWs r2) else none
    else none

/-- `PARMAT.sub('', p)` scan: at each position try the (leftmost, greedy)
match; on success drop the matched segment and continue after it, otherwise
keep the character.  Fuel-indexed so that the definition is structural; the
fuel is always instantiated to the length of the list, which suffices since
every step consumes at least one character. -/
def parmatSubGo : Nat → List Char → List Char
  | 0, l => l
  | Nat.succ fuel, l =>
    match l with
    | [] => []
    | c :: cs =>
      match tryMatch (c :: cs) with
      | some rest => parmatSubGo fuel rest
      | none => c :: parmatSubGo fuel cs

/-- `PARMAT.search(s) is not None` on a string. -/
def parmatSearch (s : String) : Bool := parmatSearchB s.data

/-- `PARMAT.sub('', s)` on a string. -/
def parmatSub (s : String) : String := String.mk (parmatSubGo s.data.length s.data)

/-- `newparams[p]` (lines 154-159): strip the array-like parenthesis marker
when present, otherwise pass the raw name through. -/
def newparamOf (p : String) : String :=
  if parmatSearch p then parmatSub p else p

/-- `annots[p]` (lines 154-160): the documentation annotation for a
parameter, `"Array-like of "` exactly when the marker pattern matches. -/
def annotOf (p : String) : String :=
  if parmatSearch p then "Array-like of " else ""

/-- `cmdtype.upper()` for the four descriptor kinds. -/
def cmdtypeUpper : CmdType → String
  | CmdType.function => "FUNCTION"
  | CmdType.subroutine => "SUBROUTINE"
  | CmdType.datastruct => "DATASTRUCT"
  | CmdType.unknown => "UNKNOWN"

/-- `descstr` (lines 138-147). -/
def descstrOf (ext : ExtFns) (cmdname : String) (e : CmdEntry) : String :=
  "Wrapper for FRED " ++ cmdname ++ " " ++ cmdtypeUpper e.cmdtype ++ ".\n" ++
  (if e.cmdtype = CmdType.datastruct then
    I2 ++ "Does not require all parameters to be set when invoked.\n"
  else
    I2 ++ "Requires all parameters to be set when invoked.\n") ++
  "\n" ++ I2 ++ ext.wrapDescr e.descr

/-- `rethdg` (lines 165-167). -/
def rethdg : String := "\n" ++ I2 ++ "Returns\n" ++ I2 ++ "-------\n"

/-- `sigits` of the subroutine branch (lines 184-189): the explicit return
entry first when present (destructured into a name/type pair, which fails
unless it has exactly two elements), then the signature pairs. -/
def subSigitsOf (e : CmdEntry) : Except String (List (String × String)) :=
  if e.returns = [] then Except.ok e.sig
  else
    match e.returns with
    | [a, b] => Except.ok ((a, b) :: e.sig)
    | _ => Except.error "ValueError: returns entry is not a name/type pair"

/-- `retstr` (lines 163-205): the return section of the docstring, empty
when no section is emitted; `Except.error` models the uncaught unpacking
exception on a malformed non-empty `returns` entry. -/
def retstrOf (ext : ExtFns) (cmdname : String) (e : CmdEntry) : Except String String :=
  if e.cmdtype = CmdType.function then
    if e.returns = [] then Except.ok ""
    else
      match e.returns with
      | [rname, rtype] =>
        Except.ok (rethdg ++ I2 ++ rname ++ ": " ++ ext.vb2pytype rtype ++ "\n")
      | _ => Except.error ("ValueError: cannot unpack returns of " ++ cmdname)
  else if e.cmdtype = CmdType.subroutine then
    if e.sig = [] ∧ e.returns = [] then Except.ok ""
    else
      match subSigitsOf e with
      | Except.error msg => Except.error msg
      | Except.ok sigits =>
        let rstr := joinComma
          (sigits.map (fun pr => pr.1 ++ ": " ++ ext.vb2pytype pr.2))
        Except.ok (rethdg ++ I2 ++
          (if sigits.length > 1 then "[" else "") ++ rstr ++
          (if sigits.length > 1 then "]" else "") ++ "\n")
  else if e.cmdtype = CmdType.datastruct then
    Except.ok (rethdg ++ I2 ++ "datastruct: <com_record " ++ cmdname ++ ">\n")
  else Except.ok ""

/-- `paramlist` (lines 207-209): `"self"` prepended, then the normalized
parameter names in signature order. -/
def paramlistOf (e : CmdEntry) : List String :=
  "self" :: e.sig.map (fun pr => newparamOf pr.1)

/-- `arglist` (lines 212-217): for a datastruct every entry other than the
literal name `"self"` gets a `=None` default appended. -/
def arglistOf (e : CmdEntry) : List String :=
  (paramlistOf e).map (fun li =>
    if e.cmdtype = CmdType.datastruct ∧ li ≠ "self" then li ++ "=None" else li)

/-- Section separator (line 206): `I1 + "# " + "=-"*36 + "="`. -/
def sepLine : String := I1 ++ "# " ++ concatAll (List.replicate 36 "=-") ++ "=\n"

/-- The emitted `def` header line (lines 219-220). -/
def deflineOf (ext : ExtFns) (cmdname : String) (e : CmdEntry) : String :=
  I1 ++ "def " ++ cmdname ++ "(" ++
    ext.wrapSig (joinComma (arglistOf e)) ++ "):\n"

/-- The `Parameters` docstring section (lines 227-233), empty when the
signature is empty. -/
def paramSectionOf (ext : ExtFns) (e : CmdEntry) : String :=
  if e.sig = [] then ""
  else
    I2 ++ "Parameters\n" ++ I2 ++ "----------\n" ++
    concatAll (e.sig.map (fun pr =>
      I2 ++ newparamOf pr.1 ++ ": " ++ annotOf pr.1 ++ ext.vb2pytype pr.2 ++ "\n"))

/-- `", ".join(paramlist[1:])` (line 254), before line wrapping. -/
def paramstrRawOf (e : CmdEntry) : String :=
  joinComma ((paramlistOf e).drop 1)

/-- `paramstr` (lines 254-259): the wrapped joined parameter names, replaced
by the placeholder `None` when empty. -/
def paramstrOf (ext : ExtFns) (e : CmdEntry) : String :=
  let w := ext.wrapSig (paramstrRawOf e)
  if w = "" then "None" else w

/-- The dispatch body (lines 242-264): record construction with conditional
field sets for a datastruct, stub invocation through `CreateLib` otherwise. -/
def dispatchBodyOf (ext : ExtFns) (cmdname : String) (e : CmdEntry) : String :=
  if e.cmdtype = CmdType.datastruct then
    I2 ++ "dstruct = w32.Record(\"" ++ cmdname ++ "\", self._dobj)\n" ++
    concatAll (((paramlistOf e).drop 1).map (fun p =>
      I2 ++ "if " ++ p ++ " is not None:\n" ++
      I2 ++ I1 ++ "setattr(dstruct, \"" ++ p ++ "\", " ++ p ++ ")\n")) ++
    I2 ++ "return dstruct\n"
  else
    I2 ++ "lib = self._dobj.CreateLib(r\"" ++ ext.stubJoin (cmdname ++ ".frs") ++ "\")\n" ++
    I2 ++ "return lib.libfunct(" ++ paramstrOf ext e ++ ")\n"

/-- The full wrapper text for one command, in the order of the `fid.write`
calls (lines 206-264). -/
def wrapperTextOf (ext : ExtFns) (cmdname : String) (e : CmdEntry)
    (docstr retstr : String) : String :=
  sepLine ++
  deflineOf ext cmdname e ++
  I2 ++ "r\"\"\"\n" ++
  I2 ++ "Python API documentation:\n" ++
  I2 ++ concatAll (List.replicate 25 "=") ++ "\n" ++
  I2 ++ descstrOf ext cmdname e ++ "\n" ++
  "\n" ++
  paramSectionOf ext e ++
  retstr ++
  "\n" ++
  I2 ++ "FRED documentation:\n" ++
  I2 ++ concatAll (List.replicate 19 "=") ++ "\n" ++
  docstr ++
  I2 ++ "\"\"\"\n" ++
  dispatchBodyOf ext cmdname e

/-- Python `dict` lookup on the documentation store (keys are unique, so
first-match association lookup is exact). -/
def lookupDoc (docdat : List (String × List (String × String))) (nm : String) :
    Option (List (String × String)) :=
  match docdat with
  | [] => none
  | kv :: rest => if kv.1 = nm then some kv.2 else lookupDoc rest nm

/-- One iteration of the command loop (lines 132-264): returns the status
messages printed and the artifact fragment written for this command, or the
uncaught exception that aborts the run.  An unknown command is skipped with
one notice before anything is written; otherwise the documentation store is
subscripted (`docdat[cmdname]`, line 162 — a missing key raises `KeyError`)
and the wrapper text is assembled. -/
def processCmd (ext : ExtFns) (docdat : List (String × List (String × String)))
    (cmd : String × CmdEntry) : Except String (List String × String) :=
  if cmd.2.cmdtype = CmdType.unknown then
    Except.ok (["... unknown command: " ++ cmd.1 ++ ". SKIPPING"], "")
  else
    match lookupDoc docdat cmd.1 with
    | none => Except.error ("KeyError: " ++ cmd.1)
    | some db =>
      match retstrOf ext cmd.1 cmd.2 with
      | Except.error msg => Except.error msg
      | Except.ok retstr =>
        Except.ok (["... wrapping " ++ cmd.1],
          wrapperTextOf ext cmd.1 cmd.2 (ext.fmt_docstr db) retstr)

/-- The command loop over the descriptor store in iteration order,
concatenating status messages and artifact fragments; the first uncaught
exception aborts the run. -/
def mainLoop (ext : ExtFns) (docdat : List (String × List (String × String))) :
    List (String × CmdEntry) → Except String (List String × String)
  | [] => Except.ok ([], "")
  | cmd :: rest =>
    match processCmd ext docdat cmd with
    | Except.error msg => Except.error msg
    | Except.ok ga =>
      match mainLoop ext docdat rest with
      | Except.error msg => Except.error msg
      | Except.ok gb => Except.ok (ga.1 ++ gb.1, ga.2 ++ gb.2)

/-- The `CLASTR` boilerplate (lines 44-97) with the generation timestamp
formatted into its placeholder. -/
def clastr (timenow : String) : String :=
  String.intercalate "\n" [
    "#! /usr/bin/env python",
    "# -*- coding: utf-8 -*-",
    "\"\"\"",
    "Provide class to wrap all available FRED commands",
    concatAll (List.replicate 79 "="),
    "Copyright 2017, Arthur Davis",
    "Email: art.davis@gmail.com",
    "This file is part of pyfred. See LICENSE and README.md for details.",
    "----------",
    "",
    timenow ++ " - File generated",
    "",
    "WARNING - This file is automatically generated by script03_apiwrapgen.py.",
    "Customizing functions here will override intended API function.",
    "Also any changes will be lost the next time script03_apiwrapgen.py is run.",
    "",
    "\"\"\"",
    "try:",
    "    " ++ "imp" ++ "ort win32com.client as w32",
    "except:",
    "    # Load a dummy",
    "    print(\"WARNING: win32com not available. Loading dummy library.\")",
    "    from w32dummy " ++ "imp" ++ "ort WinMethods",
    "    w32 = WinMethods()",
    "",
    "class Wrap(object):",
    "    \"\"\"",
    "    Class for wrapping all of the FRED functions, subroutines and",
    "    datastructures in one place with a consistent API and minimal quirks.",
    "",
    "    Using this class for FRED programming may not be the most efficient",
    "    computationally, but it does provide an easier transition for",
    "    controlling FRED through python then just using the raw win32com API.",
    "",
    "    Quirks that are caused by problematic parameter passing through the",
    "    w32 API and/or inconsistent return structures are averted by wrapping",
    "    all functions/subroutines with CreateLib().",
    "",
    "    Also quite handy to have around for quick access to documentation when",
    "    using IPython.",
    "",
    "    If imported into the global namespace, allows writing scripts that are",
    "    nearly execution compatible with native FRED VBScript.",
    "    \"\"\"",
    "    def __init__(self, dobj):",
    "        self._dobj = dobj",
    "",
    "    @property",
    "    def dobj(self):",
    "        \"\"\"",
    "        Attribute property for the FRED COM Interface document object",
    "        \"\"\"",
    "        return self._dobj",
    ""]

/-- `main()` (lines 99-265) as a pure function of the generation timestamp,
the collaborators, and the two input stores: produces the status-stream
lines and the output artifact, or the uncaught exception aborting the run. -/
def mainGen (timenow : String) (ext : ExtFns) (apidat : List (String × CmdEntry))
    (docdat : List (String × List (String × String))) :
    Except String (List String × String) :=
  match mainLoop ext docdat apidat with
  | Except.error msg => Except.error msg
  | Except.ok ga =>
    Except.ok ("\nWrapping commands in python..." :: ga.1, clastr timenow ++ ga.2)

/-- Identity-style instantiation of the external collaborators, used to
evaluate the generator on concrete inputs. -/
def extId : ExtFns :=
  { vb2pytype := fun t => t
    fmt_docstr := fun _ => ""
    wrapDescr := fun s => s
    wrapSig := fun s => s
    stubJoin := fun s => s }

example : parmatSub "coords()" = "coords" := by decide
example : parmatSub "coords ( )" = "coords" := by decide
example : parmatSearch "coords" = false := by decide
example :
    retstrOf extId "SetUnits" ⟨CmdType.subroutine, "", [], [("Units", "String")]⟩ =
      Except.ok ("\n        Returns\n        -------\n        Units: String\n") := rfl
example :
    retstrOf extId "GetUnits" ⟨CmdType.function, "", ["Units", "String"], []⟩ =
      Except.ok ("\n        Returns\n        -------\n        Units: String\n") := rfl
example :
    retstrOf extId "GetEntity" ⟨CmdType.subroutine, "", ["R", "Long"],
      [("x", "Long"), ("y", "Double")]⟩ =
      Except.ok ("\n        Returns\n        -------\n        [R: Long, x: Long, y: Double]\n") := rfl

lemma append_ne_empty_right (s t : String) (ht : t.length ≠ 0) : s ++ t ≠ "" := by
  intro h
  have h2 := congrArg String.length h
  rw [String.length_append, String.length_empty] at h2
  omega

/-- A function command with a well-formed return pair and no parameters
(the `GetUnits` scenario of the spec). -/
def getUnitsEntry : CmdEntry :=
  ⟨CmdType.function, "Get the current unit string", ["Units", "String"], []⟩

/-- A function command whose `returns` entry is non-empty but not a
name/type pair. -/
def badReturnsEntry : CmdEntry :=
  ⟨CmdType.function, "Malformed returns", ["x", "y", "z"], []⟩

/-- C1: the claim says a command present in the descriptor store but absent
from the documentation store still yields a complete wrapper with empty
documentation text.  The code instead subscripts the documentation store
(`docdat[cmdname]`, line 162), so the missing entry raises `KeyError` and
aborts the run: with descriptor store `{"GetUnits": ...}` and an empty
documentation store, generation fails instead of emitting a wrapper. -/
theorem missing_doc_entry_aborts_run :
    mainGen "2017-01-01 00:00:00" extId [("GetUnits", getUnitsEntry)] [] =
      Except.error "KeyError: GetUnits" := rfl

/-- C3: for a command of kind function (with `returns` either empty or a
name/type pair, as the data model requires), the return section is emitted
iff `returns` is non-empty, and when emitted it is the heading followed by
exactly one name/translated-type pair. -/
theorem function_return_section_shape (ext : ExtFns) (nm : String) (e : CmdEntry)
    (hk : e.cmdtype = CmdType.function)
    (hwf : e.returns = [] ∨ ∃ a b, e.returns = [a, b]) :
    (retstrOf ext nm e = Except.ok "" ↔ e.returns = []) ∧
    (∀ a b, e.returns = [a, b] →
      retstrOf ext nm e =
        Except.ok (rethdg ++ I2 ++ a ++ ": " ++ ext.vb2pytype b ++ "\n")) := by
  constructor
  · rcases hwf with h | ⟨a, b, h⟩
    · simp [retstrOf, hk, h]
    · simp only [retstrOf, hk, h, if_pos rfl]
      simp only [List.cons_ne_nil, if_neg (by simp : ¬([a, b] : List String) = [])]
      constructor
      · intro hok
        have : rethdg ++ I2 ++ a ++ ": " ++ ext.vb2pytype b ++ "\n" = "" := by
          simpa using hok
        exact absurd this (append_ne_empty_right _ _ (by decide))
      · intro hfalse
        exact absurd hfalse (by simp)
  · intro a b hab
    simp [retstrOf, hk, hab]

/-- Witness for C3 at the `GetUnits` scenario. -/
theorem function_return_section_shape_witness :
    ((retstrOf extId "GetUnits" getUnitsEntry = Except.ok "" ↔ getUnitsEntry.returns = []) ∧
    (∀ a b, getUnitsEntry.returns = [a, b] →
      retstrOf extId "GetUnits" getUnitsEntry =
        Except.ok (rethdg ++ I2 ++ a ++ ": " ++ extId.vb2pytype b ++ "\n"))) ∧
    retstrOf extId "GetUnits" getUnitsEntry =
      Except.ok ("\n        Returns\n        -------\n        Units: String\n") := by
  refine ⟨function_return_section_shape extId "GetUnits" getUnitsEntry rfl
    (Or.inr ⟨"Units", "String", rfl⟩), rfl⟩

/-- C9: for a command of kind function whose documentation entry is present,
the loop body succeeds iff the `returns` entry is empty or has exactly two
elements; a non-empty `returns` entry of any other length makes the
destructuring `rname, rtype = rlist` fail, and a run over any store
containing such a command aborts with an error. -/
theorem function_returns_destructuring (ext : ExtFns) (nm : String) (e : CmdEntry)
    (docdat : List (String × List (String × String))) (db : List (String × String))
    (hk : e.cmdtype = CmdType.function)
    (hdoc : lookupDoc docdat nm = some db) :
    ((∃ out, processCmd ext docdat (nm, e) = Except.ok out) ↔
      (e.returns = [] ∨ ∃ a b, e.returns = [a, b])) ∧
    ((e.returns ≠ [] ∧ ∀ a b, e.returns ≠ [a, b]) →
      ∀ xs ys, ∃ msg,
        mainLoop ext docdat (xs ++ (nm, e) :: ys) = Except.error msg) := by
  constructor
  · rcases hr : e.returns with _ | ⟨a, _ | ⟨b, _ | ⟨c, t⟩⟩⟩ <;>
      simp [processCmd, hk, hdoc, retstrOf, hr]
  · rintro ⟨hne, hnp⟩ xs ys
    have hproc : ∃ msg, processCmd ext docdat (nm, e) = Except.error msg := by
      rcases hr : e.returns with _ | ⟨a, _ | ⟨b, _ | ⟨c, t⟩⟩⟩
      · exact absurd hr hne
      · exact ⟨"ValueError: cannot unpack returns of " ++ nm,
          by simp [processCmd, hk, hdoc, retstrOf, hr]⟩
      · exact absurd hr (hnp a b)
      · exact ⟨"ValueError: cannot unpack returns of " ++ nm,
          by simp [processCmd, hk, hdoc, retstrOf, hr]⟩
    obtain ⟨msg0, hmsg0⟩ := hproc
    induction xs with
    | nil => exact ⟨msg0, by simp [mainLoop, hmsg0]⟩
    | cons c xs ih =>
      obtain ⟨m, hm⟩ := ih
      cases hc : processCmd ext docdat c with
      | error mm => exact ⟨mm, by simp [mainLoop, hc]⟩
      | ok g => exact ⟨m, by simp [mainLoop, hc, hm]⟩

/-- Witness for C9: a function command whose `returns` entry has three
elements aborts the run even though its documentation entry is present. -/
theorem function_returns_destructuring_witness :
    ∃ msg,
      mainLoop extId [("Bad", [])] ([] ++ ("Bad", badReturnsEntry) :: []) =
        Except.error msg :=
  (function_returns_destructuring extId "Bad" badReturnsEntry [("Bad", [])] []
      rfl rfl).2
    ⟨by simp [badReturnsEntry], by intro a b h; simp [badReturnsEntry] at h⟩ [] []

/-- Expansion of the subroutine branch of `retstr` (lines 176-201) once the
emission guard holds and `sigits` is known. -/
lemma retstrOf_subroutine_expand (ext : ExtFns) (nm : String) (e : CmdEntry)
    (hk : e.cmdtype = CmdType.subroutine) (sigits : List (String × String))
    (hs : subSigitsOf e = Except.ok sigits)
    (hne : ¬(e.sig = [] ∧ e.returns = [])) :
    retstrOf ext nm e = Except.ok (rethdg ++ I2 ++
      (if sigits.length > 1 then "[" else "") ++
      joinComma (sigits.map (fun pr => pr.1 ++ ": " ++ ext.vb2pytype pr.2)) ++
      (if sigits.length > 1 then "]" else "") ++ "\n") := by
  simp [retstrOf, hk, hs, hne]

/-- The `SetUnits` scenario: one parameter, no explicit return. -/
def setUnitsEntry : CmdEntry :=
  ⟨CmdType.subroutine, "Set the current units", [], [("Units", "String")]⟩

/-- A subroutine with an explicit return entry and two parameters. -/
def getEntityEntry : CmdEntry :=
  ⟨CmdType.subroutine, "Get an entity", ["R", "Long"], [("x", "Long"), ("y", "T_ENTITY")]⟩

/-- C2: for a command of kind subroutine (with a well-formed `returns`
entry), the return section is emitted iff there is at least one signature
parameter or a return entry; the returned pairs are the explicit return
entry (if any) followed by the signature pairs in order; a combined count of
exactly 1 renders as a single unwrapped name/type pair, and a count of 2 or
more renders as a bracketed comma-separated list. -/
theorem subroutine_return_section_shape (ext : ExtFns) (nm : String) (e : CmdEntry)
    (hk : e.cmdtype = CmdType.subroutine)
    (hwf : e.returns = [] ∨ ∃ a b, e.returns = [a, b]) :
    (retstrOf ext nm e = Except.ok "" ↔ (e.sig = [] ∧ e.returns = [])) ∧
    (∀ pairs, subSigitsOf e = Except.ok pairs →
      pairs = (match e.returns with
               | [a, b] => [(a, b)]
               | _ => ([] : List (String × String))) ++ e.sig ∧
      (∀ p, pairs = [p] →
        retstrOf ext nm e =
          Except.ok (rethdg ++ I2 ++ p.1 ++ ": " ++ ext.vb2pytype p.2 ++ "\n")) ∧
      (2 ≤ pairs.length →
        retstrOf ext nm e =
          Except.ok (rethdg ++ I2 ++ "[" ++
            joinComma (pairs.map (fun pr => pr.1 ++ ": " ++ ext.vb2pytype pr.2)) ++
            "]" ++ "\n"))) := by
  rcases hwf with hr | ⟨a, b, hr⟩
  · have hsub : subSigitsOf e = Except.ok e.sig := by simp [subSigitsOf, hr]
    constructor
    · cases hs : e.sig with
      | nil => simp [retstrOf, hk, hr, hs]
      | cons q qs =>
        rw [retstrOf_subroutine_expand ext nm e hk e.sig hsub
          (by rintro ⟨h1, _⟩; simp [hs] at h1)]
        constructor
        · intro h
          exact absurd (by simpa using h) (append_ne_empty_right _ _ (by decide))
        · rintro ⟨h1, _⟩
          simp [hs] at h1
    · intro pairs hp
      rw [hsub] at hp
      injection hp with hp'
      subst hp'
      refine ⟨by simp [hr], ?_, ?_⟩
      · rintro p hp1
        rw [retstrOf_subroutine_expand ext nm e hk e.sig hsub
          (by rintro ⟨h1, _⟩; simp [h1] at hp1)]
        rw [hp1]
        simp [joinComma, String.append_assoc, String.append_empty, String.empty_append]
      · intro hlen
        rw [retstrOf_subroutine_expand ext nm e hk e.sig hsub
          (by rintro ⟨h1, _⟩; rw [h1] at hlen; simp at hlen)]
        have hgt : e.sig.length > 1 := by omega
        simp only [if_pos hgt]
  · have hsub : subSigitsOf e = Except.ok ((a, b) :: e.sig) := by
      simp [subSigitsOf, hr]
    have hne : ¬(e.sig = [] ∧ e.returns = []) := by
      rintro ⟨_, h2⟩; simp [hr] at h2
    constructor
    · rw [retstrOf_subroutine_expand ext nm e hk _ hsub hne]
      constructor
      · intro h
        exact absurd (by simpa using h) (append_ne_empty_right _ _ (by decide))
      · rintro ⟨_, h2⟩
        simp [hr] at h2
    · intro pairs hp
      rw [hsub] at hp
      injection hp with hp'
      subst hp'
      refine ⟨by simp [hr], ?_, ?_⟩
      · rintro p hp1
        obtain ⟨hpp, hs0⟩ : (a, b) = p ∧ e.sig = [] := by simpa using hp1
        subst hpp
        rw [retstrOf_subroutine_expand ext nm e hk _ hsub hne, hs0]
        simp [joinComma, String.append_assoc, String.append_empty, String.empty_append]
      · intro hlen
        rw [retstrOf_subroutine_expand ext nm e hk _ hsub hne]
        have hgt : ((a, b) :: e.sig).length > 1 := by
          simp only [List.length_cons] at hlen ⊢; omega
        simp only [if_pos hgt]

/-- Witness for C2: the `SetUnits` scenario (count 1, unwrapped) and the
`GetEntity`-style scenario (count 3, bracketed, explicit return first). -/
theorem subroutine_return_section_shape_witness :
    (setUnitsEntry.cmdtype = CmdType.subroutine ∧
      retstrOf extId "SetUnits" setUnitsEntry =
        Except.ok ("\n        Returns\n        -------\n        Units: String\n")) ∧
    (getEntityEntry.cmdtype = CmdType.subroutine ∧
      retstrOf extId "GetEntity" getEntityEntry =
        Except.ok
          ("\n        Returns\n        -------\n        [R: Long, x: Long, y: T_ENTITY]\n")) := by
  have h1 := subroutine_return_section_shape extId "SetUnits" setUnitsEntry rfl
    (Or.inl rfl)
  have h2 := subroutine_return_section_shape extId "GetEntity" getEntityEntry rfl
    (Or.inr ⟨"R", "Long", rfl⟩)
  refine ⟨⟨rfl, ?_⟩, ⟨rfl, ?_⟩⟩
  · have := (h1.2 [("Units", "String")] rfl).2.1 ("Units", "String") rfl
    rw [this]; rfl
  · have := (h2.2 [("R", "Long"), ("x", "Long"), ("y", "T_ENTITY")] rfl).2.2
      (by decide)
    rw [this]; rfl

/-- C6: a command of kind unknown contributes nothing to the output
artifact, exactly one skip notice naming it to the status stream, and the
loop over the remaining commands proceeds exactly as without it (the event
is not fatal, and errors before or after it propagate unchanged). -/
theorem unknown_command_skipped (ext : ExtFns)
    (docdat : List (String × List (String × String))) (nm : String) (e : CmdEntry)
    (hk : e.cmdtype = CmdType.unknown) :
    processCmd ext docdat (nm, e) =
      Except.ok (["... unknown command: " ++ nm ++ ". SKIPPING"], "") ∧
    ∀ xs ys,
      mainLoop ext docdat (xs ++ (nm, e) :: ys) =
        (match mainLoop ext docdat xs, mainLoop ext docdat ys with
         | Except.ok p, Except.ok q =>
            Except.ok (p.1 ++ ("... unknown command: " ++ nm ++ ". SKIPPING") :: q.1,
              p.2 ++ q.2)
         | Except.error m, _ => Except.error m
         | Except.ok _, Except.error m => Except.error m) := by
  have hpc : processCmd ext docdat (nm, e) =
      Except.ok (["... unknown command: " ++ nm ++ ". SKIPPING"], "") := by
    simp [processCmd, hk]
  refine ⟨hpc, ?_⟩
  intro xs ys
  induction xs with
  | nil =>
    cases hys : mainLoop ext docdat ys <;>
      simp [mainLoop, hpc, hys, String.empty_append]
  | cons c xs ih =>
    cases hc : processCmd ext docdat c with
    | error m => simp [mainLoop, hc]
    | ok g =>
      cases hxs : mainLoop ext docdat xs with
      | error m => simp [mainLoop, hc, hxs, ih]
      | ok p =>
        cases hys : mainLoop ext docdat ys <;>
          simp [mainLoop, hc, hxs, hys, ih, List.append_assoc, String.append_assoc]

/-- The `"Foo"` scenario: an unknown command. -/
def fooUnknownEntry : CmdEntry := ⟨CmdType.unknown, "", [], []⟩

/-- Witness for C6 at the `"Foo"` scenario with empty surrounding stores. -/
theorem unknown_command_skipped_witness :
    processCmd extId [] ("Foo", fooUnknownEntry) =
      Except.ok (["... unknown command: " ++ "Foo" ++ ". SKIPPING"], "") ∧
    ∀ xs ys,
      mainLoop extId [] (xs ++ ("Foo", fooUnknownEntry) :: ys) =
        (match mainLoop extId [] xs, mainLoop extId [] ys with
         | Except.ok p, Except.ok q =>
            Except.ok (p.1 ++ ("... unknown command: " ++ "Foo" ++ ". SKIPPING") :: q.1,
              p.2 ++ q.2)
         | Except.error m, _ => Except.error m
         | Except.ok _, Except.error m => Except.error m) :=
  unknown_command_skipped extId [] "Foo" fooUnknownEntry rfl

/-- C7: for a function or subroutine (with a line wrapper that maps the
empty string to itself), the stub-call argument string is never empty: it is
the placeholder `None` exactly when the signature is empty, and otherwise
derives from the comma-joined normalized non-receiver parameter names in
their original order; the dispatch body is the two-line `CreateLib` stub
invocation with that argument string. -/
theorem stub_call_placeholder (ext : ExtFns) (nm : String) (e : CmdEntry)
    (hk : e.cmdtype = CmdType.function ∨ e.cmdtype = CmdType.subroutine)
    (hwrap : ext.wrapSig "" = "") :
    paramstrOf ext e ≠ "" ∧
    paramstrRawOf e = joinComma (e.sig.map (fun pr => newparamOf pr.1)) ∧
    (e.sig = [] → paramstrOf ext e = "None") ∧
    dispatchBodyOf ext nm e =
      I2 ++ "lib = self._dobj.CreateLib(r\"" ++ ext.stubJoin (nm ++ ".frs") ++ "\")\n" ++
      I2 ++ "return lib.libfunct(" ++ paramstrOf ext e ++ ")\n" := by
  have hnd : ¬ e.cmdtype = CmdType.datastruct := by
    rcases hk with h | h <;> simp [h]
  refine ⟨?_, ?_, ?_, ?_⟩
  · unfold paramstrOf
    by_cases hw : ext.wrapSig (paramstrRawOf e) = "" <;> simp [hw]
  · simp [paramstrRawOf, paramlistOf]
  · intro hs
    simp [paramstrOf, paramstrRawOf, paramlistOf, hs, joinComma, hwrap]
  · simp [dispatchBodyOf, hnd]

/-- The `ARNDeleteAllNodes` scenario: a subroutine with no parameters. -/
def arnEntry : CmdEntry := ⟨CmdType.subroutine, "Delete all nodes", [], []⟩

/-- Witness for C7: a zero-parameter subroutine dispatches with the `None`
placeholder. -/
theorem stub_call_placeholder_witness :
    paramstrOf extId arnEntry = "None" ∧
    dispatchBodyOf extId "ARNDeleteAllNodes" arnEntry =
      "        lib = self._dobj.CreateLib(r\"ARNDeleteAllNodes.frs\")\n" ++
      "        return lib.libfunct(None)\n" := by
  have h := stub_call_placeholder extId "ARNDeleteAllNodes" arnEntry (Or.inr rfl) rfl
  refine ⟨h.2.2.1 rfl, ?_⟩
  rw [h.2.2.2, h.2.2.1 rfl]
  rfl

/-- C8: two runs over identical descriptor and documentation stores differ
only in the generation timestamp slotted into the boilerplate header: the
status streams agree and the artifact bodies after the header are
byte-identical. -/
theorem timestamp_only_difference (t1 t2 : String) (ext : ExtFns)
    (apidat : List (String × CmdEntry))
    (docdat : List (String × List (String × String)))
    (g1 g2 : List String) (a1 a2 : String)
    (h1 : mainGen t1 ext apidat docdat = Except.ok (g1, a1))
    (h2 : mainGen t2 ext apidat docdat = Except.ok (g2, a2)) :
    g1 = g2 ∧ ∃ body, a1 = clastr t1 ++ body ∧ a2 = clastr t2 ++ body := by
  unfold mainGen at h1 h2
  cases hl : mainLoop ext docdat apidat with
  | error m =>
    rw [hl] at h1
    exact absurd h1 (by simp)
  | ok ga =>
    rw [hl] at h1 h2
    simp only [Except.ok.injEq, Prod.mk.injEq] at h1 h2
    obtain ⟨hg1, ha1⟩ := h1
    obtain ⟨hg2, ha2⟩ := h2
    exact ⟨hg1 ▸ hg2 ▸ rfl, ga.2, ha1.symm, ha2.symm⟩

/-- Witness for C8 over the empty descriptor store at two timestamps. -/
theorem timestamp_only_difference_witness :
    (mainGen "2017-01-01 00:00:00" extId [] [] =
      Except.ok (["\nWrapping commands in python..."], clastr "2017-01-01 00:00:00" ++ "")) ∧
    (["\nWrapping commands in python..."] : List String) = ["\nWrapping commands in python..."] ∧
    ∃ body, clastr "2017-01-01 00:00:00" ++ "" = clastr "2017-01-01 00:00:00" ++ body ∧
      clastr "2018-12-31 23:59:59" ++ "" = clastr "2018-12-31 23:59:59" ++ body :=
  ⟨rfl, timestamp_only_difference "2017-01-01 00:00:00" "2018-12-31 23:59:59" extId [] []
    _ _ _ _ rfl rfl⟩

/-- A datastruct whose single non-receiver parameter is literally named
`self`. -/
def dsSelfEntry : CmdEntry := ⟨CmdType.datastruct, "", [], [("self", "Long")]⟩

/-- C4 counterexample: the default-appending loop (lines 213-217) tests the
normalized parameter name against the literal `"self"`, not the parameter's
position, so a datastruct whose non-receiver parameter is named `self` is
emitted without the `=None` default: its header argument list is
`["self", "self"]` and the second entry does not carry the default. -/
theorem datastruct_default_counterexample :
    dsSelfEntry.cmdtype = CmdType.datastruct ∧
    arglistOf dsSelfEntry = ["self", "self"] ∧
    ("self" : String) ≠ "self" ++ "=None" := by
  refine ⟨rfl, by decide, by decide⟩

/-- C4 (amended): for a datastruct, every non-receiver parameter whose
normalized name differs from the literal receiver name `self` carries the
`=None` default in the emitted header (one whose normalized name is exactly
`self` is emitted without it); the dispatch body opens the record, contains
exactly one conditional field-set per non-receiver parameter, and returns
the constructed record. -/
theorem datastruct_defaults_and_fieldsets (ext : ExtFns) (nm : String) (e : CmdEntry)
    (hk : e.cmdtype = CmdType.datastruct) :
    arglistOf e = "self" :: e.sig.map (fun pr =>
      if newparamOf pr.1 ≠ "self" then newparamOf pr.1 ++ "=None"
      else newparamOf pr.1) ∧
    dispatchBodyOf ext nm e =
      I2 ++ "dstruct = w32.Record(\"" ++ nm ++ "\", self._dobj)\n" ++
      concatAll (e.sig.map (fun pr =>
        I2 ++ "if " ++ newparamOf pr.1 ++ " is not None:\n" ++
        I2 ++ I1 ++ "setattr(dstruct, \"" ++ newparamOf pr.1 ++ "\", " ++
          newparamOf pr.1 ++ ")\n")) ++
      I2 ++ "return dstruct\n" := by
  constructor
  · simp [arglistOf, paramlistOf, hk, List.map_map, Function.comp_def]
  · simp [dispatchBodyOf, hk, paramlistOf, List.map_map, Function.comp_def]

/-- The `T_ENTITY` scenario: a datastruct with two parameters. -/
def tEntityEntry : CmdEntry :=
  ⟨CmdType.datastruct, "Entity record", [], [("Idnum", "Long"), ("Name", "String")]⟩

/-- Witness for the amended C4 at the `T_ENTITY` scenario. -/
theorem datastruct_defaults_and_fieldsets_witness :
    arglistOf tEntityEntry = ["self", "Idnum=None", "Name=None"] ∧
    dispatchBodyOf extId "T_ENTITY" tEntityEntry =
      "        dstruct = w32.Record(\"T_ENTITY\", self._dobj)\n" ++
      "        if Idnum is not None:\n" ++
      "            setattr(dstruct, \"Idnum\", Idnum)\n" ++
      "        if Name is not None:\n" ++
      "            setattr(dstruct, \"Name\", Name)\n" ++
      "        return dstruct\n" := by
  have h := datastruct_defaults_and_fieldsets extId "T_ENTITY" tEntityEntry rfl
  exact ⟨by rw [h.1]; rfl, by rw [h.2]; rfl⟩

/-- C5: a raw parameter name matching the whitespace-tolerant
empty-parenthesis pattern is replaced by the name with the matched segments
removed and annotated `"Array-like of "`; a non-matching name passes through
with an empty annotation.  The normalized names are what the call signature
and the datastruct field-set logic use, the annotation appears only in the
parameter documentation line, and the annotation never changes the call
signature's arity (always one receiver plus one entry per signature
parameter). -/
theorem array_like_param_normalization :
    (∀ p : String,
      (parmatSearch p = true →
        newparamOf p = parmatSub p ∧ annotOf p = "Array-like of ") ∧
      (parmatSearch p = false → newparamOf p = p ∧ annotOf p = "")) ∧
    (∀ (ext : ExtFns) (nm : String) (e : CmdEntry),
      (arglistOf e).length = e.sig.length + 1 ∧
      (paramlistOf e).drop 1 = e.sig.map (fun pr => newparamOf pr.1) ∧
      (e.sig ≠ [] → paramSectionOf ext e =
        I2 ++ "Parameters\n" ++ I2 ++ "----------\n" ++
        concatAll (e.sig.map (fun pr =>
          I2 ++ newparamOf pr.1 ++ ": " ++ annotOf pr.1 ++ ext.vb2pytype pr.2 ++ "\n"))) ∧
      (e.cmdtype = CmdType.datastruct →
        dispatchBodyOf ext nm e =
          I2 ++ "dstruct = w32.Record(\"" ++ nm ++ "\", self._dobj)\n" ++
          concatAll (e.sig.map (fun pr =>
            I2 ++ "if " ++ newparamOf pr.1 ++ " is not None:\n" ++
            I2 ++ I1 ++ "setattr(dstruct, \"" ++ newparamOf pr.1 ++ "\", " ++
              newparamOf pr.1 ++ ")\n")) ++
          I2 ++ "return dstruct\n")) := by
  constructor
  · intro p
    constructor
    · intro h; simp [newparamOf, annotOf, h]
    · intro h; simp [newparamOf, annotOf, h]
  · intro ext nm e
    refine ⟨by simp [arglistOf, paramlistOf], ?_, ?_, ?_⟩
    · simp [paramlistOf]
    · intro hs; simp [paramSectionOf, hs]
    · intro hk
      simp [dispatchBodyOf, hk, paramlistOf, List.map_map, Function.comp_def]

/-- Witness for C5: `"coords()"` and `"coords ( )"` are stripped to
`"coords"` with the array-like annotation, `"coords"` passes through with an
empty annotation, and a one-parameter signature always yields a two-entry
header regardless of the annotation. -/
theorem array_like_param_normalization_witness :
    (newparamOf "coords()" = "coords" ∧ annotOf "coords()" = "Array-like of ") ∧
    (newparamOf "coords ( )" = "coords" ∧ annotOf "coords ( )" = "Array-like of ") ∧
    (newparamOf "coords" = "coords" ∧ annotOf "coords" = "") ∧
    (arglistOf ⟨CmdType.subroutine, "", [], [("coords()", "Double")]⟩).length = 1 + 1 := by
  have h1 := (array_like_param_normalization.1 "coords()").1 (by decide)
  have h2 := (array_like_param_normalization.1 "coords ( )").1 (by decide)
  have h3 := (array_like_param_normalization.1 "coords").2 (by decide)
  have h4 := (array_like_param_normalization.2 extId "X"
    ⟨CmdType.subroutine, "", [], [("coords()", "Double")]⟩).1
  refine ⟨⟨?_, h1.2⟩, ⟨?_, h2.2⟩, h3, by simpa using h4⟩
  · rw [h1.1]; rfl
  · rw [h2.1]; rfl

/-- A subroutine whose single parameter carries the array-like marker. -/
def coordsSubEntry : CmdEntry :=
  ⟨CmdType.subroutine, "", [], [("coords()", "Double")]⟩

/-- C10: for a subroutine (well-formed `returns`, non-empty signature), the
pairs rendered in the return section carry the raw signature names — the
explicit return name (if any) followed by the raw parameter names — while
the call signature (`paramlist` minus the receiver) carries the normalized
names, so a parameter matching the array-like pattern appears stripped in
the signature but with its marker intact in the return section. -/
theorem subroutine_return_uses_raw_names (ext : ExtFns) (nm : String) (e : CmdEntry)
    (hk : e.cmdtype = CmdType.subroutine)
    (hwf : e.returns = [] ∨ ∃ a b, e.returns = [a, b])
    (hne : e.sig ≠ []) :
    (∃ pairs, subSigitsOf e = Except.ok pairs ∧
      pairs.map Prod.fst = (match e.returns with
        | [a, _] => [a]
        | _ => ([] : List String)) ++ e.sig.map Prod.fst ∧
      retstrOf ext nm e = Except.ok (rethdg ++ I2 ++
        (if pairs.length > 1 then "[" else "") ++
        joinComma (pairs.map (fun pr => pr.1 ++ ": " ++ ext.vb2pytype pr.2)) ++
        (if pairs.length > 1 then "]" else "") ++ "\n")) ∧
    (paramlistOf e).drop 1 = e.sig.map (fun pr => newparamOf pr.1) := by
  have hguard : ¬(e.sig = [] ∧ e.returns = []) := by
    rintro ⟨h1, _⟩; exact hne h1
  constructor
  · rcases hwf with hr | ⟨a, b, hr⟩
    · refine ⟨e.sig, by simp [subSigitsOf, hr], by simp [hr], ?_⟩
      exact retstrOf_subroutine_expand ext nm e hk e.sig (by simp [subSigitsOf, hr]) hguard
    · refine ⟨(a, b) :: e.sig, by simp [subSigitsOf, hr], by simp [hr], ?_⟩
      exact retstrOf_subroutine_expand ext nm e hk _ (by simp [subSigitsOf, hr]) hguard
  · simp [paramlistOf]

/-- Witness for C10: the array-like parameter `"coords()"` keeps its marker
in the return section while the call signature uses the stripped name. -/
theorem subroutine_return_uses_raw_names_witness :
    retstrOf extId "SetCoords" coordsSubEntry =
      Except.ok ("\n        Returns\n        -------\n        coords(): Double\n") ∧
    (paramlistOf coordsSubEntry).drop 1 = ["coords"] := by
  have h := subroutine_return_uses_raw_names extId "SetCoords" coordsSubEntry rfl
    (Or.inl rfl) (by simp [coordsSubEntry])
  obtain ⟨⟨pairs, hp, _, hret⟩, hsig⟩ := h
  constructor
  · have hpairs : pairs = [("coords()", "Double")] := by
      have : subSigitsOf coordsSubEntry = Except.ok [("coords()", "Double")] := rfl
      rw [this] at hp
      injection hp with hpe
      exact hpe.symm
    rw [hret, hpairs]
    rfl
  · rw [hsig]; rfl
